import Mathlib

/-!
Shallow embedding of the WisdomAI frontend's streaming-chat session.

The embedding covers:
* `src/src/services/chatService.js` — `sendMessage` (user-message save, stream
  parameter construction, the `setupStream` closure with its `onmessage` /
  `onerror` handlers and the `done`-branch assistant save), `clearChat`;
* `src/src/components/Chat.js` — `handleSendMessage` (guard, optimistic
  append, stream handler wiring), `handleStreamDone`, `handleStreamError`,
  `handleNewChat`, `handleClearChat`;
* `src/unnamed/part_000` — `App.handleChatUpdated` / `selectedChatId`;
* `src/unnamed/part_005` — the alternative `sendMessage` iteration (stream
  parameters including `chatId`) and its `clearChat`.

The backend (`axios` calls) is modelled as an oracle `Backend.save` returning
`Except`; every outbound request is additionally recorded as a `NetEffect` so
that theorems can count saves, stream connections and clear requests.
JavaScript truthiness of strings / nullable ids is modelled by `strTruthy` /
`optTruthy`. An `EventSource` is modelled by `StreamConn`: per the EventSource
specification, after `close()` no further events are dispatched, so a step on
a closed connection is the identity.
-/

namespace WisdomAI

/-- Message roles used by the app (`user`, `assistant`, `system`). -/
inductive Role where
  | user
  | assistant
  | system
deriving DecidableEq, Repr

/-- A chat message: `role`, `content`, optional persona `figure`
(Chat.js builds `{ role, content }` for user messages and
`{ role, content, figure }` for assistant messages). -/
structure Message where
  role : Role
  content : String
  figure : Option String := none
deriving DecidableEq, Repr

/-- The backend's chat document as the client sees it: `_id` and `messages`
(`response.data` of `POST /chat/message`, chatService.js lines 105-122). -/
structure ChatDoc where
  _id : String
  messages : List Message
deriving DecidableEq, Repr

deriving instance DecidableEq for Except

/-- JavaScript truthiness of a string: non-empty. -/
def strTruthy (s : String) : Bool := !s.isEmpty

/-- JavaScript `String.prototype.trim()`: strip leading and trailing
whitespace (modelled with `Char.isWhitespace`, by structural recursion so
that it evaluates). -/
def jsTrim (s : String) : String :=
  ⟨((s.data.dropWhile Char.isWhitespace).reverse.dropWhile Char.isWhitespace).reverse⟩

/-- JavaScript truthiness of a nullable string (`null` and `""` are falsy). -/
def optTruthy : Option String → Bool
  | none => false
  | some s => strTruthy s

/-- Outbound network requests issued by the session.
`save chatId message wisdomFigure` records one `saveMessage` POST body
(chatService.js lines 105-114); `openStream params` records one `EventSource`
creation with its query parameters; `clearReq chatId` records one
`POST /chat/clear` body (the main iteration sends an empty body, so `none`). -/
inductive NetEffect where
  | save (chatId : Option String) (message : Message) (wisdomFigure : Option String)
  | openStream (params : List (String × String))
  | clearReq (chatId : Option String)
deriving DecidableEq, Repr

/-- The backend oracle: the outcome of one `saveMessage` call, keyed by the
request body `(chatId, message, wisdomFigure)`. `Except.error` models the
axios promise rejecting. -/
structure Backend where
  save : Option String → Message → Option String → Except String ChatDoc

/-- Stream query parameters of the main iteration
(chatService.js lines 21-25): `message`, `wisdomFigure`, `token` — built via
`URLSearchParams({ message: message.content, wisdomFigure, token })`.
No `chatId` parameter is added in this iteration. -/
def streamParams (content figure token : String) : List (String × String) :=
  [("message", content), ("wisdomFigure", figure), ("token", token)]

/-- Stream query parameters of the part_005 iteration
(src/unnamed/part_005 lines 67-73): `message`, `wisdomFigure`, `chatId`,
`token`, appended in that order to the EventSource URL. -/
def part005StreamParams (content figure chatId token : String) : List (String × String) :=
  [("message", content), ("wisdomFigure", figure), ("chatId", chatId), ("token", token)]

/-- Local state of the `Chat` component (Chat.js lines 9-14):
`messages`, `newMessage`, `isTyping`, `streamingText`, and whether
`cleanupRef.current` holds a cleanup closure. -/
structure ChatState where
  messages : List Message
  newMessage : String
  isTyping : Bool
  streamingText : String
  cleanupActive : Bool
deriving DecidableEq, Repr

/-- State of the `App` component of src/unnamed/part_000 (lines 21-32):
`selectedChatId` (set only by `handleChatSelected`) and `refreshTrigger`. -/
structure AppState where
  selectedChatId : Option String
  refreshTrigger : Nat
deriving DecidableEq, Repr

/-- src/unnamed/part_000 lines 26-28: `handleChatUpdated` ignores the id it is
called with and only bumps `refreshTrigger`; `selectedChatId` is untouched. -/
def handleChatUpdated (app : AppState) (_chatId : Option String) : AppState :=
  { app with refreshTrigger := app.refreshTrigger + 1 }

/-- One `EventSource` connection: the `fullResponse` accumulator captured by
`setupStream` (chatService.js line 31) and whether the source is closed.
After `close()` the EventSource dispatches no further events. -/
structure StreamConn where
  fullResponse : String
  closed : Bool
deriving DecidableEq, Repr

/-- The whole client session: Chat component state, App state, and the
current streaming connection (`closed := true` when none is live). -/
structure Session where
  chat : ChatState
  app : AppState
  conn : StreamConn
deriving DecidableEq, Repr

/-- Values captured by the stream handler closures for one turn: the backend,
the persona, `chatResponse._id` captured by the service closure
(chatService.js line 49), and the component's `currentChatId` local
(Chat.js lines 82-96). -/
structure StreamCtx where
  backend : Backend
  figure : String
  serviceChatId : String
  currentChatId : Option String

/-- One inbound event on the streaming connection: either a parsed SSE
message with optional `content` and a `done` flag (chatService.js lines
36-45), or a transport error delivered to `onerror` (lines 68-72). -/
inductive StreamItem where
  | msg (content : Option String) (done : Bool)
  | err
deriving DecidableEq, Repr

/-- Chat.js lines 103-130, `handleStreamDone`: clear `cleanupRef`, stop the
typing indicator, clear the streaming text, save the assistant message
(`saveMessage(currentChatId, assistantMessage)` — no `wisdomFigure`
argument), and on success replace `messages` with the saved chat's list and
notify the parent; on failure append a system error message. -/
def handleStreamDone (b : Backend) (figure : String) (currentChatId : Option String)
    (fullReply : String) (chat : ChatState) (app : AppState) (effs : List NetEffect) :
    ChatState × AppState × List NetEffect :=
  let chat1 := { chat with cleanupActive := false, isTyping := false, streamingText := "" }
  let assistantMessage : Message := ⟨Role.assistant, fullReply, some figure⟩
  match b.save currentChatId assistantMessage none with
  | Except.ok saved =>
      ({ chat1 with messages := saved.messages },
       handleChatUpdated app currentChatId,
       effs ++ [NetEffect.save currentChatId assistantMessage none])
  | Except.error _ =>
      ({ chat1 with
          messages := chat1.messages ++
            [⟨Role.system, "Error: Failed to save assistant response.", none⟩] },
       app,
       effs ++ [NetEffect.save currentChatId assistantMessage none])

/-- Chat.js lines 132-141, `handleStreamError`: stop the typing indicator,
clear the streaming text, append one system error message, and clear
`cleanupRef` (which closes the EventSource; the connection flag is handled by
the caller `stepStream`). -/
def handleStreamError (chat : ChatState) : ChatState :=
  { chat with
      isTyping := false
      streamingText := ""
      messages := chat.messages ++ [⟨Role.system, "Error: Connection to server lost.", none⟩]
      cleanupActive := false }

/-- One EventSource callback of the main iteration, with the component's
handlers wired in (chatService.js lines 34-72 and Chat.js lines 99-141).
A closed connection dispatches nothing. For a parsed message: if `content`
is present it is appended to `fullResponse` and `onChunk` updates
`streamingText`; if `done` is set the source is closed, the accumulated reply
is saved as an assistant message against `chatResponse._id` (the outcome is
ignored: both the `.then` and the `.catch` continue into `onDone`,
chatService.js lines 49-58), and `handleStreamDone` runs. On a transport
error, `onError` runs the component's `handleStreamError` and the source is
closed. -/
def stepStream (ctx : StreamCtx) (se : Session × List NetEffect) (item : StreamItem) :
    Session × List NetEffect :=
  let sess := se.1
  if sess.conn.closed then se
  else
    match item with
    | StreamItem.msg content done =>
        let fr := match content with
          | some c => sess.conn.fullResponse ++ c
          | none => sess.conn.fullResponse
        let chatA := match content with
          | some _ => { sess.chat with streamingText := fr }
          | none => sess.chat
        if done then
          let am : Message := ⟨Role.assistant, fr, some ctx.figure⟩
          let effs1 := se.2 ++ [NetEffect.save (some ctx.serviceChatId) am (some ctx.figure)]
          match ctx.backend.save (some ctx.serviceChatId) am (some ctx.figure) with
          | Except.ok _ =>
              let r := handleStreamDone ctx.backend ctx.figure ctx.currentChatId fr chatA sess.app effs1
              (⟨r.1, r.2.1, ⟨fr, true⟩⟩, r.2.2)
          | Except.error _ =>
              let r := handleStreamDone ctx.backend ctx.figure ctx.currentChatId fr chatA sess.app effs1
              (⟨r.1, r.2.1, ⟨fr, true⟩⟩, r.2.2)
        else
          (⟨chatA, sess.app, ⟨fr, false⟩⟩, se.2)
    | StreamItem.err =>
        (⟨handleStreamError sess.chat, sess.app, ⟨sess.conn.fullResponse, true⟩⟩, se.2)

/-- Process a list of stream events in arrival order. -/
def runStream (ctx : StreamCtx) (items : List StreamItem) (se : Session × List NetEffect) :
    Session × List NetEffect :=
  match items with
  | [] => se
  | i :: is => runStream ctx is (stepStream ctx se i)

/-- Chat.js lines 61-80, the synchronous prologue of `handleSendMessage`
before the first `await`: the guard `if (!newMessage.trim() || isTyping)
return;`, then the optimistic append of exactly one user message with the
trimmed text, clearing the input, setting `isTyping`, clearing
`streamingText`, and nulling `cleanupRef`. Returns `none` when the guard
rejects the call. -/
def sendPrologueStep (chat : ChatState) : Option (ChatState × Message) :=
  if jsTrim chat.newMessage = "" ∨ chat.isTyping = true then none
  else
    let userMessage : Message := ⟨Role.user, jsTrim chat.newMessage, none⟩
    some ({ chat with
              messages := chat.messages ++ [userMessage]
              newMessage := ""
              isTyping := true
              streamingText := ""
              cleanupActive := false },
          userMessage)

/-- Chat.js lines 82-96: `currentChatId` starts as `selectedChatId` and is
replaced by the save's `updatedChatId` when it was falsy
(`if (!currentChatId && updatedChatId) currentChatId = updatedChatId`). -/
def adoptId (currentChatId : Option String) (updatedChatId : String) : Option String :=
  if optTruthy currentChatId = false ∧ strTruthy updatedChatId = true then some updatedChatId
  else currentChatId

/-- One full `handleSendMessage` turn of the main iteration (Chat.js lines
61-159 together with chatService.js `sendMessage`, lines 14-88), driven by a
script `items` of stream events. After the prologue, the old stream (if any)
has been cleaned up; the service saves the user message (on rejection the
component's catch appends a system message and stops typing, lines 149-158);
on success the service builds the stream parameters — without a `chatId` —
opens the EventSource, and the events are processed by `runStream`. -/
def handleSendMessage (b : Backend) (figure token : String) (sess : Session)
    (items : List StreamItem) : Session × List NetEffect :=
  match sendPrologueStep sess.chat with
  | none => (sess, [])
  | some (chat1, userMessage) =>
      let conn0 := if sess.chat.cleanupActive then { sess.conn with closed := true } else sess.conn
      let currentChatId0 := sess.app.selectedChatId
      match b.save currentChatId0 userMessage (some figure) with
      | Except.error _ =>
          (⟨{ chat1 with
                isTyping := false
                messages := chat1.messages ++
                  [⟨Role.system, "Error: Could not start chat. Please try again.", none⟩] },
             sess.app, conn0⟩,
           [NetEffect.save currentChatId0 userMessage (some figure)])
      | Except.ok chatResponse =>
          let ctx : StreamCtx :=
            ⟨b, figure, chatResponse._id, adoptId currentChatId0 chatResponse._id⟩
          runStream ctx items
            (⟨{ chat1 with cleanupActive := true }, sess.app, ⟨"", false⟩⟩,
             [NetEffect.save currentChatId0 userMessage (some figure),
              NetEffect.openStream (streamParams userMessage.content figure token)])

/-- Chat.js lines 161-177, `handleNewChat`: run the cleanup closure if one is
live (closing the EventSource), empty the local messages, clear the
streaming text and typing flag, and call `onChatUpdated(null)` (which, in
src/unnamed/part_000, only bumps `refreshTrigger`). -/
def handleNewChat (sess : Session) : Session :=
  let conn1 := if sess.chat.cleanupActive then { sess.conn with closed := true } else sess.conn
  ⟨{ sess.chat with messages := [], streamingText := "", isTyping := false, cleanupActive := false },
   handleChatUpdated sess.app none,
   conn1⟩

/-- Chat.js lines 179-206 `handleClearChat` combined with the main
iteration's service `clearChat` (chatService.js lines 189-201), which takes
no argument and posts an empty body — the selected id is never transmitted.
A falsy `selectedChatId` returns early with no network call. Otherwise the
cleanup closure runs, the clear request is issued, and on success the local
messages are emptied, streaming state reset, and the parent notified with
the unchanged `selectedChatId`; on failure only the cleanup has happened. -/
def handleClearChat (clearOk : Bool) (sess : Session) : Session × List NetEffect :=
  if optTruthy sess.app.selectedChatId = false then (sess, [])
  else
    let conn1 := if sess.chat.cleanupActive then { sess.conn with closed := true } else sess.conn
    let chat1 := { sess.chat with cleanupActive := false }
    if clearOk then
      (⟨{ chat1 with messages := [], streamingText := "", isTyping := false },
        handleChatUpdated sess.app sess.app.selectedChatId,
        conn1⟩,
       [NetEffect.clearReq none])
    else
      (⟨chat1, sess.app, conn1⟩, [NetEffect.clearReq none])

/-- src/unnamed/part_005 lines 43-131, the alternative `sendMessage`: save
the user message (`{ role: 'user', content: message.content }`; the
`|| message` fallback only applies to a falsy content), capture
`savedChat._id` as `updatedChatId`, and build the EventSource query
parameters `message`, `wisdomFigure`, `chatId` (= `updatedChatId`) and
`token`. Returns the authoritative id together with the stream parameters. -/
def part005SendMessage (b : Backend) (chatId : Option String) (message : Message)
    (figure token : String) : Except String (String × List (String × String)) :=
  match b.save chatId ⟨Role.user, message.content, none⟩ (some figure) with
  | Except.error e => Except.error e
  | Except.ok savedChat =>
      Except.ok (savedChat._id, part005StreamParams message.content figure savedChat._id token)

/-- src/unnamed/part_005 lines 233-254, the alternative `clearChat`: a falsy
`chatId` throws (`Chat ID is required`) before any request; otherwise the
request body carries `{ chatId }`. -/
def part005ClearChat (chatId : Option String) : Except String NetEffect :=
  if optTruthy chatId = false then Except.error "Chat ID is required"
  else Except.ok (NetEffect.clearReq chatId)

/-- Recognizes a persisted assistant-message write. -/
def isAssistantSave : NetEffect → Bool
  | NetEffect.save _ m _ => m.role = Role.assistant
  | _ => false

/-- Recognizes a persisted user-message write. -/
def isUserSave : NetEffect → Bool
  | NetEffect.save _ m _ => m.role = Role.user
  | _ => false

/-- Recognizes an opened streaming connection. -/
def isOpenStream : NetEffect → Bool
  | NetEffect.openStream _ => true
  | _ => false

/-- Query parameters of an opened streaming connection, if the effect is one. -/
def openStreamParamsOf : NetEffect → Option (List (String × String))
  | NetEffect.openStream p => some p
  | _ => none

/-- The `chatId` of a save request, if the effect is one. -/
def saveChatIdOf : NetEffect → Option (Option String)
  | NetEffect.save cid _ _ => some cid
  | _ => none

/-- The content of a saved assistant message, if the effect is one. -/
def assistantSaveContent : NetEffect → Option String
  | NetEffect.save _ ⟨Role.assistant, content, _⟩ _ => some content
  | _ => none

/-- A message script consisting only of content chunks (no `done`, no error). -/
def contentItems (cs : List String) : List StreamItem :=
  cs.map (fun c => StreamItem.msg (some c) false)

/-- A demonstration backend: every save succeeds; a `null` chatId creates
chat `X1`; the response carries the saved message. -/
def demoBackend : Backend where
  save := fun chatId m _figure => Except.ok ⟨chatId.getD "X1", [m]⟩

/-- A backend that rejects exactly the service-layer assistant save (the one
carrying a `wisdomFigure` argument, chatService.js lines 49-53) and accepts
everything else, including the component's assistant save (which passes no
`wisdomFigure`). -/
def flakyBackend : Backend where
  save := fun chatId m figure =>
    match m.role, figure with
    | Role.assistant, some _ => Except.error "500"
    | _, _ => Except.ok ⟨chatId.getD "X1", [m]⟩

/-- A fresh session: no messages, input "hi", idle, no live stream, no
selected chat. -/
def initSession : Session :=
  ⟨⟨[], "hi", false, "", false⟩, ⟨none, 0⟩, ⟨"", true⟩⟩

/-- The spec's demonstration stream: chunks `Hel`, `lo`, ` world`, then the
`done` signal. -/
def demoItems : List StreamItem :=
  contentItems ["Hel", "lo", " world"] ++ [StreamItem.msg none true]

/-- The chat state after the `onChunk` handler has run on each of the chunks
`cs` in order, starting from accumulator `fr`: each chunk sets
`streamingText` to the grown accumulator and changes nothing else. -/
def streamChunksChat (chat : ChatState) (fr : String) : List String → ChatState
  | [] => chat
  | c :: cs => streamChunksChat { chat with streamingText := fr ++ c } (fr ++ c) cs

theorem stepStream_closed (ctx : StreamCtx) (se : Session × List NetEffect)
    (item : StreamItem) (h : se.1.conn.closed = true) : stepStream ctx se item = se := by
  unfold stepStream
  simp [h]

theorem runStream_closed (ctx : StreamCtx) (items : List StreamItem)
    (se : Session × List NetEffect) (h : se.1.conn.closed = true) :
    runStream ctx items se = se := by
  induction items with
  | nil => rfl
  | cons i is ih => rw [runStream, stepStream_closed ctx se i h, ih]

theorem runStream_append (ctx : StreamCtx) (as bs : List StreamItem)
    (se : Session × List NetEffect) :
    runStream ctx (as ++ bs) se = runStream ctx bs (runStream ctx as se) := by
  induction as generalizing se with
  | nil => rfl
  | cons a as ih => rw [List.cons_append, runStream, runStream, ih]

theorem runStream_content (ctx : StreamCtx) (cs : List String) (chat : ChatState)
    (app : AppState) (fr : String) (effs : List NetEffect) :
    runStream ctx (contentItems cs) (⟨chat, app, ⟨fr, false⟩⟩, effs)
      = (⟨streamChunksChat chat fr cs, app, ⟨cs.foldl (· ++ ·) fr, false⟩⟩, effs) := by
  induction cs generalizing chat fr with
  | nil => rfl
  | cons c cs ih =>
      rw [contentItems, List.map_cons, runStream]
      have hstep : stepStream ctx (⟨chat, app, ⟨fr, false⟩⟩, effs) (StreamItem.msg (some c) false)
          = (⟨{ chat with streamingText := fr ++ c }, app, ⟨fr ++ c, false⟩⟩, effs) := rfl
      rw [hstep]
      exact ih { chat with streamingText := fr ++ c } (fr ++ c)

theorem streamChunksChat_fields (cs : List String) (chat : ChatState) (fr : String) :
    (streamChunksChat chat fr cs).messages = chat.messages ∧
    (streamChunksChat chat fr cs).isTyping = chat.isTyping ∧
    (streamChunksChat chat fr cs).cleanupActive = chat.cleanupActive ∧
    (streamChunksChat chat fr cs).newMessage = chat.newMessage := by
  induction cs generalizing chat fr with
  | nil => exact ⟨rfl, rfl, rfl, rfl⟩
  | cons c cs ih => exact ih { chat with streamingText := fr ++ c } (fr ++ c)

theorem streamChunksChat_messages (cs : List String) (chat : ChatState) (fr : String) :
    (streamChunksChat chat fr cs).messages = chat.messages :=
  (streamChunksChat_fields cs chat fr).1

theorem streamChunksChat_isTyping (cs : List String) (chat : ChatState) (fr : String) :
    (streamChunksChat chat fr cs).isTyping = chat.isTyping :=
  (streamChunksChat_fields cs chat fr).2.1

theorem streamChunksChat_cleanupActive (cs : List String) (chat : ChatState) (fr : String) :
    (streamChunksChat chat fr cs).cleanupActive = chat.cleanupActive :=
  (streamChunksChat_fields cs chat fr).2.2.1

theorem sendPrologueStep_some (chat : ChatState)
    (h1 : jsTrim chat.newMessage ≠ "") (h2 : chat.isTyping = false) :
    sendPrologueStep chat
      = some ({ chat with
                  messages := chat.messages ++ [⟨Role.user, jsTrim chat.newMessage, none⟩]
                  newMessage := ""
                  isTyping := true
                  streamingText := ""
                  cleanupActive := false },
              ⟨Role.user, jsTrim chat.newMessage, none⟩) := by
  unfold sendPrologueStep
  rw [if_neg]
  simp [h1, h2]

theorem handleSendMessage_ok (b : Backend) (figure token : String) (sess : Session)
    (items : List StreamItem) (resp : ChatDoc)
    (h1 : jsTrim sess.chat.newMessage ≠ "") (h2 : sess.chat.isTyping = false)
    (h3 : b.save sess.app.selectedChatId ⟨Role.user, jsTrim sess.chat.newMessage, none⟩
            (some figure) = Except.ok resp) :
    handleSendMessage b figure token sess items
      = runStream ⟨b, figure, resp._id, adoptId sess.app.selectedChatId resp._id⟩ items
          (⟨{ sess.chat with
                messages := sess.chat.messages ++ [⟨Role.user, jsTrim sess.chat.newMessage, none⟩]
                newMessage := ""
                isTyping := true
                streamingText := ""
                cleanupActive := true },
             sess.app, ⟨"", false⟩⟩,
           [NetEffect.save sess.app.selectedChatId ⟨Role.user, jsTrim sess.chat.newMessage, none⟩
              (some figure),
            NetEffect.openStream (streamParams (jsTrim sess.chat.newMessage) figure token)]) := by
  unfold handleSendMessage
  rw [sendPrologueStep_some sess.chat h1 h2]
  dsimp only
  rw [h3]

/-- A session with a selected chat `abc`, two messages, no live stream. -/
def sessWithChat : Session :=
  ⟨⟨[⟨Role.user, "hi", none⟩, ⟨Role.assistant, "Hello world", some "Buddha"⟩],
    "", false, "", false⟩,
   ⟨some "abc", 0⟩, ⟨"", true⟩⟩

/-- A session mid-turn: `isTyping` is set, a cleanup closure is live. -/
def busySession : Session :=
  ⟨⟨[⟨Role.user, "hi", none⟩], "again", true, "Hel", true⟩, ⟨none, 0⟩, ⟨"Hel", false⟩⟩

/-- A session mid-stream, reached by a real turn that has received the chunk
`Hel` and no `done` yet. -/
def midSession : Session :=
  (handleSendMessage demoBackend "Buddha" "tok" initSession (contentItems ["Hel"])).1

/-- C1: the claim says a successful turn issues exactly one persisted
assistant-message write. On the demonstration turn (fresh session, text
`hi`, persona `Buddha`, chunks `Hel`/`lo`/` world` then `done`) the code
issues TWO assistant-message saves — one in the service's `done` branch
(chatService.js line 49) and one in the component's `handleStreamDone`
(Chat.js line 118) — while the user-message save and the stream connection
each occur exactly once as claimed. -/
theorem turn_issues_two_assistant_saves :
    (handleSendMessage demoBackend "Buddha" "tok" initSession demoItems).2.countP isAssistantSave
        = 2 ∧
    (handleSendMessage demoBackend "Buddha" "tok" initSession demoItems).2.countP isUserSave
        = 1 ∧
    (handleSendMessage demoBackend "Buddha" "tok" initSession demoItems).2.countP isOpenStream
        = 1 := by
  refine ⟨by decide, by decide, by decide⟩

/-- C2 counterexample: the claim says the streaming connection's parameters
include the authoritative `chatId`. In the main iteration
(chatService.js lines 21-25) the parameters at message `hi`, persona
`Buddha`, token `tok` are exactly `message`, `wisdomFigure`, `token` — no
`chatId` key. -/
theorem stream_params_omit_chatId_cex :
    (streamParams "hi" "Buddha" "tok").map Prod.fst = ["message", "wisdomFigure", "token"] ∧
    "chatId" ∉ (streamParams "hi" "Buddha" "tok").map Prod.fst :=
  ⟨rfl, by decide⟩

/-- C2 amended: in the part_005 iteration of `sendMessage`, the stream
parameters are the message text, the persona, the authoritative `chatId`
returned by the preceding save, and the token; the src/src iteration's
parameters never include a `chatId`. -/
theorem stream_params_amended (b : Backend) (cid : Option String) (m : Message)
    (figure token : String) (resp : ChatDoc)
    (h : b.save cid ⟨Role.user, m.content, none⟩ (some figure) = Except.ok resp) :
    part005SendMessage b cid m figure token
        = Except.ok (resp._id,
            [("message", m.content), ("wisdomFigure", figure), ("chatId", resp._id),
             ("token", token)]) ∧
    ∀ content fig tok, "chatId" ∉ (streamParams content fig tok).map Prod.fst := by
  constructor
  · unfold part005SendMessage
    rw [h]
    rfl
  · intro content fig tok
    simp [streamParams]

theorem stream_params_amended_witness :
    part005SendMessage demoBackend none ⟨Role.user, "hi", none⟩ "Buddha" "tok"
        = Except.ok ("X1",
            [("message", "hi"), ("wisdomFigure", "Buddha"), ("chatId", "X1"), ("token", "tok")]) ∧
    "chatId" ∉ (streamParams "greet" "Laozi" "tk").map Prod.fst :=
  ⟨(stream_params_amended demoBackend none ⟨Role.user, "hi", none⟩ "Buddha" "tok"
      ⟨"X1", [⟨Role.user, "hi", none⟩]⟩ rfl).1,
   (stream_params_amended demoBackend none ⟨Role.user, "hi", none⟩ "Buddha" "tok"
      ⟨"X1", [⟨Role.user, "hi", none⟩]⟩ rfl).2 "greet" "Laozi" "tk"⟩

/-- C4: with a null `chatId` at the start of the turn and the save returning
the new id `X1`, the claim says the stream parameters and the assistant save
use `X1` and the session's authoritative id becomes `X1`. In the code the
assistant saves do use `X1`, but the stream is opened with no `chatId`
parameter at all, and `App.handleChatUpdated` (src/unnamed/part_000 lines
26-28) discards the id it is notified with, so `selectedChatId` is still
null after the turn. -/
theorem null_chatId_turn_divergence :
    demoBackend.save none ⟨Role.user, "hi", none⟩ (some "Buddha")
        = Except.ok ⟨"X1", [⟨Role.user, "hi", none⟩]⟩ ∧
    (handleSendMessage demoBackend "Buddha" "tok" initSession demoItems).2.filterMap
        openStreamParamsOf = [streamParams "hi" "Buddha" "tok"] ∧
    "chatId" ∉ (streamParams "hi" "Buddha" "tok").map Prod.fst ∧
    (handleSendMessage demoBackend "Buddha" "tok" initSession demoItems).2.filterMap saveChatIdOf
        = [none, some "X1", some "X1"] ∧
    (handleSendMessage demoBackend "Buddha" "tok" initSession demoItems).1.app.selectedChatId
        = none := by
  refine ⟨rfl, by decide, by decide, by decide, by decide⟩

/-- C10: the service's `done` branch swallows a failed assistant save
(chatService.js lines 54-58): with a backend that rejects exactly that save,
the rejection happens, yet the whole turn — component state and recorded
requests — is indistinguishable from the turn under a backend where the save
succeeds, and no system-role error message is surfaced. -/
theorem service_assistant_save_failure_swallowed :
    flakyBackend.save (some "X1") ⟨Role.assistant, "Hello world", some "Buddha"⟩ (some "Buddha")
        = Except.error "500" ∧
    handleSendMessage flakyBackend "Buddha" "tok" initSession demoItems
        = handleSendMessage demoBackend "Buddha" "tok" initSession demoItems ∧
    (handleSendMessage flakyBackend "Buddha" "tok" initSession demoItems).1.chat.messages.countP
        (fun m => m.role = Role.system) = 0 ∧
    (handleSendMessage flakyBackend "Buddha" "tok" initSession demoItems).1.chat.isTyping
        = false := by
  refine ⟨rfl, by decide, by decide, by decide⟩

/-- C3 counterexample: the claim says `clearChat` with a non-null id calls
the backend to clear the stored messages for that id. With the chat `abc`
selected, the single outbound clear request issued by `handleClearChat`
carries no chat id at all (the main service's `clearChat`,
chatService.js lines 189-201, takes no argument and posts an empty body). -/
theorem clearChat_request_carries_no_id_cex :
    (handleClearChat true sessWithChat).2 = [NetEffect.clearReq none] ∧
    NetEffect.clearReq (some "abc") ∉ (handleClearChat true sessWithChat).2 := by
  refine ⟨by decide, by decide⟩

/-- C3 amended: `clearChat` with a falsy id returns with no network call and
no state change; with a truthy id the component issues exactly one clear
request — carrying no chat id in the main service iteration — and on backend
success empties the local message sequence while `selectedChatId` is
unchanged (on failure the messages are unchanged). The part_005 service
iteration itself rejects a null id before any request and otherwise sends
the id in the request body. -/
theorem clearChat_behavior_amended :
    (∀ ok sess, optTruthy sess.app.selectedChatId = false →
        handleClearChat ok sess = (sess, [])) ∧
    (∀ sess, optTruthy sess.app.selectedChatId = true →
        (handleClearChat true sess).1.chat.messages = [] ∧
        (handleClearChat true sess).1.app.selectedChatId = sess.app.selectedChatId ∧
        (handleClearChat true sess).2 = [NetEffect.clearReq none] ∧
        (handleClearChat false sess).1.chat.messages = sess.chat.messages ∧
        (handleClearChat false sess).2 = [NetEffect.clearReq none]) ∧
    part005ClearChat none = Except.error "Chat ID is required" ∧
    (∀ cid, strTruthy cid = true →
        part005ClearChat (some cid) = Except.ok (NetEffect.clearReq (some cid))) := by
  refine ⟨?_, ?_, rfl, ?_⟩
  · intro ok sess h
    simp [handleClearChat, h]
  · intro sess h
    refine ⟨?_, ?_, ?_, ?_, ?_⟩ <;> simp [handleClearChat, h, handleChatUpdated]
  · intro cid h
    simp [part005ClearChat, optTruthy, h]

theorem clearChat_behavior_amended_witness :
    handleClearChat true initSession = (initSession, []) ∧
    (handleClearChat true sessWithChat).1.chat.messages = [] ∧
    (handleClearChat true sessWithChat).1.app.selectedChatId = some "abc" ∧
    part005ClearChat (some "abc") = Except.ok (NetEffect.clearReq (some "abc")) :=
  ⟨clearChat_behavior_amended.1 true initSession rfl,
   (clearChat_behavior_amended.2.1 sessWithChat rfl).1,
   by rw [(clearChat_behavior_amended.2.1 sessWithChat rfl).2.1]; decide,
   clearChat_behavior_amended.2.2.2 "abc" rfl⟩

/-- C5: a `sendMessage` turn issued while another is in flight is a no-op —
any session whose `isTyping` flag is set (true from the synchronous prologue
until `done` or error) is returned unchanged with no outbound request — and
a first turn observed mid-stream (any prefix of content chunks) still has
`isTyping` set while exactly one save and one stream connection have gone
out. -/
theorem overlapping_send_noop :
    (∀ b figure token sess items, sess.chat.isTyping = true →
        handleSendMessage b figure token sess items = (sess, [])) ∧
    (∀ (b : Backend) (figure token : String) (sess : Session) (cs : List String)
        (resp : ChatDoc),
        jsTrim sess.chat.newMessage ≠ "" → sess.chat.isTyping = false →
        b.save sess.app.selectedChatId ⟨Role.user, jsTrim sess.chat.newMessage, none⟩
            (some figure) = Except.ok resp →
        (handleSendMessage b figure token sess (contentItems cs)).1.chat.isTyping = true ∧
        (handleSendMessage b figure token sess (contentItems cs)).2
          = [NetEffect.save sess.app.selectedChatId
               ⟨Role.user, jsTrim sess.chat.newMessage, none⟩ (some figure),
             NetEffect.openStream (streamParams (jsTrim sess.chat.newMessage) figure token)]) := by
  constructor
  · intro b figure token sess items h
    unfold handleSendMessage sendPrologueStep
    simp [h]
  · intro b figure token sess cs resp h1 h2 h3
    rw [handleSendMessage_ok b figure token sess (contentItems cs) resp h1 h2 h3,
        runStream_content]
    exact ⟨by rw [streamChunksChat_isTyping], rfl⟩

theorem overlapping_send_noop_witness :
    handleSendMessage demoBackend "Buddha" "tok" busySession [] = (busySession, []) ∧
    (handleSendMessage demoBackend "Buddha" "tok" initSession
        (contentItems ["Hel", "lo"])).1.chat.isTyping = true :=
  ⟨overlapping_send_noop.1 demoBackend "Buddha" "tok" busySession [] rfl,
   (overlapping_send_noop.2 demoBackend "Buddha" "tok" initSession ["Hel", "lo"]
      ⟨"X1", [⟨Role.user, "hi", none⟩]⟩ (by decide) rfl (by decide)).1⟩

/-- C6: `newChat` while a stream is in flight (a cleanup closure is live)
closes the active connection, and a connection whose source is closed
dispatches nothing: any events delivered afterwards leave the whole session
— in particular the message sequence and the pending assistant text — and
the request log unchanged. `newChat` itself empties the local messages and
pending text. -/
theorem newChat_closes_stream_and_discards_chunks (sess : Session) (ctx : StreamCtx)
    (items : List StreamItem) (effs : List NetEffect)
    (h : sess.chat.cleanupActive = true) :
    (handleNewChat sess).conn.closed = true ∧
    runStream ctx items (handleNewChat sess, effs) = (handleNewChat sess, effs) ∧
    (handleNewChat sess).chat.messages = [] ∧
    (handleNewChat sess).chat.streamingText = "" := by
  have hc : (handleNewChat sess).conn.closed = true := by
    simp [handleNewChat, h]
  exact ⟨hc, runStream_closed ctx items (handleNewChat sess, effs) hc, rfl, rfl⟩

theorem newChat_closes_stream_and_discards_chunks_witness :
    (handleNewChat midSession).conn.closed = true ∧
    runStream ⟨demoBackend, "Buddha", "X1", some "X1"⟩ [StreamItem.msg (some "lo") false]
        (handleNewChat midSession, []) = (handleNewChat midSession, []) :=
  ⟨(newChat_closes_stream_and_discards_chunks midSession
      ⟨demoBackend, "Buddha", "X1", some "X1"⟩ [StreamItem.msg (some "lo") false] []
      (by decide)).1,
   (newChat_closes_stream_and_discards_chunks midSession
      ⟨demoBackend, "Buddha", "X1", some "X1"⟩ [StreamItem.msg (some "lo") false] []
      (by decide)).2.1⟩

/-- C7: for any component state whose input is non-empty after trimming and
with no send in flight, the synchronous part of `handleSendMessage` (before
any network call is issued, let alone resolves) appends exactly one
user-role message carrying the trimmed text — and nothing else — to the
in-memory sequence. -/
theorem optimistic_user_append (chat : ChatState)
    (h1 : jsTrim chat.newMessage ≠ "") (h2 : chat.isTyping = false) :
    (sendPrologueStep chat).map (fun p => p.1.messages)
        = some (chat.messages ++ [⟨Role.user, jsTrim chat.newMessage, none⟩]) ∧
    (sendPrologueStep chat).map (fun p => p.2)
        = some ⟨Role.user, jsTrim chat.newMessage, none⟩ := by
  rw [sendPrologueStep_some chat h1 h2]
  exact ⟨rfl, rfl⟩

theorem optimistic_user_append_witness :
    (sendPrologueStep ⟨[], "  hi  ", false, "", false⟩).map (fun p => p.1.messages)
        = some ([] ++ [⟨Role.user, jsTrim "  hi  ", none⟩]) :=
  (optimistic_user_append ⟨[], "  hi  ", false, "", false⟩ (by decide) rfl).1

/-- C8: the streaming accumulator is the left fold of string concatenation
over the chunks in arrival order; on the demonstration stream `Hel`, `lo`,
` world` the transient pending text equals `Hello world` once all chunks are
in, and every persisted assistant write of the turn carries content
`Hello world`. -/
theorem stream_fold_concat :
    (∀ (ctx : StreamCtx) (chat : ChatState) (app : AppState) (fr : String)
        (effs : List NetEffect) (cs : List String),
        (runStream ctx (contentItems cs) (⟨chat, app, ⟨fr, false⟩⟩, effs)).1.conn.fullResponse
          = cs.foldl (· ++ ·) fr) ∧
    (handleSendMessage demoBackend "Buddha" "tok" initSession
        (contentItems ["Hel", "lo", " world"])).1.chat.streamingText = "Hello world" ∧
    (handleSendMessage demoBackend "Buddha" "tok" initSession demoItems).2.filterMap
        assistantSaveContent = ["Hello world", "Hello world"] := by
  refine ⟨?_, by decide, by decide⟩
  intro ctx chat app fr effs cs
  rw [runStream_content]

/-- C9: a transport error after any prefix of content chunks closes the
connection, appends exactly one system-role message (after the turn's user
message), returns the session to idle (`isTyping` false, empty pending
text), and issues no further request — the request log holds exactly the one
user save and the one stream connection, with no retry and no assistant
save. -/
theorem stream_error_single_system_message (b : Backend) (figure token : String)
    (sess : Session) (cs : List String) (resp : ChatDoc)
    (h1 : jsTrim sess.chat.newMessage ≠ "") (h2 : sess.chat.isTyping = false)
    (h3 : b.save sess.app.selectedChatId ⟨Role.user, jsTrim sess.chat.newMessage, none⟩
            (some figure) = Except.ok resp) :
    (handleSendMessage b figure token sess
        (contentItems cs ++ [StreamItem.err])).1.chat.messages
      = sess.chat.messages ++
          [⟨Role.user, jsTrim sess.chat.newMessage, none⟩,
           ⟨Role.system, "Error: Connection to server lost.", none⟩] ∧
    (handleSendMessage b figure token sess
        (contentItems cs ++ [StreamItem.err])).1.chat.isTyping = false ∧
    (handleSendMessage b figure token sess
        (contentItems cs ++ [StreamItem.err])).1.chat.streamingText = "" ∧
    (handleSendMessage b figure token sess
        (contentItems cs ++ [StreamItem.err])).1.conn.closed = true ∧
    (handleSendMessage b figure token sess
        (contentItems cs ++ [StreamItem.err])).2
      = [NetEffect.save sess.app.selectedChatId
           ⟨Role.user, jsTrim sess.chat.newMessage, none⟩ (some figure),
         NetEffect.openStream (streamParams (jsTrim sess.chat.newMessage) figure token)] := by
  rw [handleSendMessage_ok b figure token sess (contentItems cs ++ [StreamItem.err]) resp h1 h2 h3,
      runStream_append, runStream_content]
  refine ⟨?_, ?_, ?_, ?_, ?_⟩ <;>
    simp [runStream, stepStream, handleStreamError, streamChunksChat_messages]

theorem stream_error_single_system_message_witness :
    (handleSendMessage demoBackend "Buddha" "tok" initSession
        (contentItems ["Hel"] ++ [StreamItem.err])).1.chat.isTyping = false ∧
    (handleSendMessage demoBackend "Buddha" "tok" initSession
        (contentItems ["Hel"] ++ [StreamItem.err])).1.conn.closed = true :=
  ⟨(stream_error_single_system_message demoBackend "Buddha" "tok" initSession ["Hel"]
      ⟨"X1", [⟨Role.user, "hi", none⟩]⟩ (by decide) rfl (by decide)).2.1,
   (stream_error_single_system_message demoBackend "Buddha" "tok" initSession ["Hel"]
      ⟨"X1", [⟨Role.user, "hi", none⟩]⟩ (by decide) rfl (by decide)).2.2.2.1⟩

end WisdomAI
